import Mathlib

/- Verification of the parsons dbt utilities (parsons/utilities/dbt/dbt.py and
parsons/utilities/dbt/models.py): a shallow embedding of the command-execution
facade (dbtRunnerParsons) and the result wrapper (Manifest), together with
theorems settling the specified properties. -/

namespace ParsonsDbt

/- Status enum of a node outcome.  In dbt, NodeStatus is a str-valued enum;
`str` below is the enum member's string value, which is what
str(node.status) produces and what filter_results compares against. -/
inductive NodeStatus where
  | Success
  | Error
  | Fail
  | Warn
  | Skipped
  | PartialSuccess
  | Pass
  | RuntimeErr
deriving DecidableEq, Repr

def NodeStatus.str : NodeStatus → String
  | .Success => "success"
  | .Error => "error"
  | .Fail => "fail"
  | .Warn => "warn"
  | .Skipped => "skipped"
  | .PartialSuccess => "partial success"
  | .Pass => "pass"
  | .RuntimeErr => "runtime error"

/- Resource type of a node (dbt NodeType; the members the module inspects). -/
inductive NodeType where
  | Model
  | Test
  | Seed
  | Snapshot
  | Source
  | Operation
deriving DecidableEq, Repr

/- The nested node descriptor; `resource_type` is read with
getattr(result.node, "resource_type", None), hence Option. -/
structure NodeInfo where
  name : String
  resource_type : Option NodeType
deriving DecidableEq, Repr

/- One entry of RunExecutionResult.results.  `isNodeResult` records whether the
object is an instance of the NodeResult class (filter_results keeps only
those); non-NodeResult entries carry the same accessed fields (status, node,
adapter_response).  `adapter_response` is the adapter-response mapping, with
numeric values (bytes_processed, slot_ms) as rationals.  `extra` holds the
remaining attributes, pre-stringified, for the str(getattr(result, key))
comparisons of filter_results. -/
structure RunResultItem where
  isNodeResult : Bool
  status : NodeStatus
  node : NodeInfo
  adapter_response : List (String × Rat)
  extra : List (String × String)
deriving DecidableEq, Repr

/- str(getattr(result, key)) on a result entry: status is the str-valued
status enum; every other attribute is looked up pre-stringified in `extra`.
A key absent everywhere raises AttributeError in the source; here the lookup
returns none, which no equality comparison satisfies (the module's own
filters only ever pass the always-present "status" key). -/
def RunResultItem.getattrStr (r : RunResultItem) (key : String) : Option String :=
  if key = "status" then some r.status.str
  else r.extra.lookup key

/- The metadata sub-object of a run result (dbt ManifestMetadata), modelled as
its attribute map; hasattr/getattr on it is lookup in `fields`. -/
structure Metadata where
  fields : List (String × String)
deriving DecidableEq, Repr

/- The outcome object returned by the underlying runner
(dbt RunExecutionResult): an ordered collection of per-node results, an
optional metadata sub-object (tests delete the attribute entirely, hence
Option), and further attributes reachable by name, pre-stringified. -/
structure RunExecutionResult where
  results : List RunResultItem
  metadata : Option Metadata
  extra : List (String × String)
deriving DecidableEq, Repr

/- A value produced by attribute lookup on the wrapper. -/
inductive AttrValue where
  | str (s : String)
  | rer (r : RunExecutionResult)
  | results (rs : List RunResultItem)
  | metadataOpt (md : Option Metadata)
deriving DecidableEq, Repr

/- getattr on the outcome object: "results" and "metadata" are its structured
attributes; anything else is looked up in `extra`. -/
def RunExecutionResult.getattr (res : RunExecutionResult) (key : String) :
    Option AttrValue :=
  if key = "results" then some (.results res.results)
  else if key = "metadata" then some (.metadataOpt res.metadata)
  else (res.extra.lookup key).map .str

/- The result wrapper (models.py Manifest).  After construction,
run_execution_result is guaranteed non-null (the constructor raises
otherwise), so the field is not optional here. -/
structure Manifest where
  command : String
  run_execution_result : RunExecutionResult
deriving DecidableEq, Repr

/- Outcome of Manifest.__init__: the constructed wrapper plus whether a
DeprecationWarning was emitted. -/
structure InitResult where
  manifest : Manifest
  deprecationWarning : Bool
deriving DecidableEq, Repr

/- Manifest.__init__(command, run_execution_result=None, *, dbt_manifest=None):
sets run_execution_result; if it is None and dbt_manifest is not None,
substitutes dbt_manifest and warns; if it is still None, raises
Exception("missing run_execution_result"). -/
def manifestInit (command : String)
    (run_execution_result dbt_manifest : Option RunExecutionResult) :
    Except String InitResult :=
  match run_execution_result with
  | some r =>
      .ok { manifest := { command := command, run_execution_result := r },
            deprecationWarning := false }
  | none =>
      match dbt_manifest with
      | some r =>
          .ok { manifest := { command := command, run_execution_result := r },
                deprecationWarning := true }
      | none => .error "missing run_execution_result"

/- The guard of Manifest.__getattr__: metadata is not None and
hasattr(metadata, key). -/
def metadataLookup (m : Manifest) (key : String) : Option String :=
  m.run_execution_result.metadata.bind (fun md => md.fields.lookup key)

/- Attribute lookup on the wrapper.  Python finds the instance fields set in
__init__ (command, run_execution_result) before ever calling __getattr__;
the fallback then checks the metadata sub-object, then the outcome object,
and finally raises AttributeError(f"'Manifest' object has no attribute
'{key}'"). -/
def Manifest.getattr (m : Manifest) (key : String) : Except String AttrValue :=
  if key = "command" then .ok (.str m.command)
  else if key = "run_execution_result" then .ok (.rer m.run_execution_result)
  else
    match metadataLookup m key with
    | some v => .ok (.str v)
    | none =>
        match m.run_execution_result.getattr key with
        | some v => .ok v
        | none =>
            .error ("'Manifest' object has no attribute '" ++ key ++ "'")

/- self.results inside the Manifest methods: resolved by the __getattr__
fallback to run_execution_result.results (the metadata sub-object's fixed
schema has no "results" attribute). -/
def Manifest.results (m : Manifest) : List RunResultItem :=
  m.run_execution_result.results

/- Manifest.filter_results(**kwargs): the entries of self.results that are
NodeResult instances and satisfy str(getattr(result, key)) == value for
every keyword, in order. -/
def Manifest.filter_results (m : Manifest) (kwargs : List (String × String)) :
    List RunResultItem :=
  m.results.filter (fun result =>
    result.isNodeResult &&
      kwargs.all (fun kv => decide (result.getattrStr kv.fst = some kv.snd)))

def Manifest.warnings (m : Manifest) : List RunResultItem :=
  m.filter_results [("status", NodeStatus.Warn.str)]

def Manifest.errors (m : Manifest) : List RunResultItem :=
  m.filter_results [("status", NodeStatus.Error.str)]

def Manifest.fails (m : Manifest) : List RunResultItem :=
  m.filter_results [("status", NodeStatus.Fail.str)]

/- Manifest.skips: skipped model builds but not skipped tests. -/
def Manifest.skips (m : Manifest) : List RunResultItem :=
  (m.filter_results [("status", NodeStatus.Skipped.str)]).filter
    (fun result => decide (result.node.resource_type = some NodeType.Model))

/- Manifest.summary: collections.Counter over the statuses of all entries of
self.results, as a multiplicity function; summary.get(k, 0) is `summary k`. -/
def Manifest.summary (m : Manifest) (s : NodeStatus) : Nat :=
  (m.results.filter (fun r => decide (r.status = s))).length

/- Manifest.overall_status: the precedence ladder of the source. -/
def Manifest.overall_status (m : Manifest) : NodeStatus :=
  if m.errors ≠ [] ∨ m.fails ≠ [] then NodeStatus.Error
  else if m.warnings ≠ [] then NodeStatus.Warn
  else
    let has_success :=
      m.summary NodeStatus.Success > 0 ∨ m.summary NodeStatus.Pass > 0
    if m.skips ≠ [] ∧ ¬ has_success then NodeStatus.Skipped
    else NodeStatus.Success

/- Manifest.total_gb_processed: sum of adapter_response.get("bytes_processed",
0) over self.results, divided by 1000000000 (exact rational arithmetic in
place of Python floats; the specified values are exact). -/
def Manifest.total_gb_processed (m : Manifest) : Rat :=
  (m.results.map
      (fun node => (node.adapter_response.lookup "bytes_processed").getD 0)).sum
    / 1000000000

/- Manifest.total_slot_hours: sum of adapter_response.get("slot_ms", 0) over
self.results, divided by 3600000. -/
def Manifest.total_slot_hours (m : Manifest) : Rat :=
  (m.results.map
      (fun node => (node.adapter_response.lookup "slot_ms").getD 0)).sum
    / 3600000

/- An exception object reported by the underlying runner (carried verbatim). -/
structure Exc where
  msg : String
deriving DecidableEq, Repr

/- The object returned by dbtRunner().invoke(cli_args): an exception field and
a result field. -/
structure DbtRunnerResult where
  exception : Option Exc
  result : Option RunExecutionResult
deriving DecidableEq, Repr

/- dbtRunnerParsons after __init__: a single command string has already been
wrapped into a one-element list; directories as path strings, the profile
directory optional. -/
structure DbtRunnerParsons where
  commands : List String
  dbt_project_directory : String
  dbt_profile_directory : Option String
deriving DecidableEq, Repr

/- An exception escaping the batch: either the runner-reported exception,
re-raised verbatim, or the Exception raised by Manifest.__init__. -/
inductive RunError where
  | runnerExc (e : Exc)
  | initError (msg : String)
deriving DecidableEq, Repr

/- Python s.startswith(p): p's characters are a prefix of s's. -/
def pyStartsWith (s p : String) : Bool :=
  p.toList.isPrefixOf s.toList

/- Python s.split(sep) for a one-character separator: split at every
occurrence, keeping empty fields (so "a  b".split(" ") = ["a", "", "b"] and
"".split(" ") = [""]). -/
def pySplitAux (sep : Char) : List Char → List Char → List String
  | [], acc => [String.mk acc.reverse]
  | c :: cs, acc =>
      if c = sep then String.mk acc.reverse :: pySplitAux sep cs []
      else pySplitAux sep cs (c :: acc)

def pySplit (sep : Char) (s : String) : List String :=
  pySplitAux sep s.toList []

/- The prefix strip at the top of execute_dbt_command:
if command.startswith("dbt "): command = command[4:]  (slice of characters). -/
def stripMarker (command : String) : String :=
  if pyStartsWith command "dbt " then command.drop 4 else command

/- The CLI argument list built by execute_dbt_command: the stripped command
split on single spaces (Python str.split(" ")), then
["--project-dir", str(project)] always, then ["--profiles-dir", str(profile)]
only when a profile directory was supplied. -/
def buildCliArgs (p : DbtRunnerParsons) (command : String) : List String :=
  let command := stripMarker command
  let cli_args := pySplit ' ' command
  let cli_args := cli_args ++ ["--project-dir", p.dbt_project_directory]
  match p.dbt_profile_directory with
  | some d => cli_args ++ ["--profiles-dir", d]
  | none => cli_args

/- dbtRunnerParsons.execute_dbt_command, with the underlying
dbtRunner().invoke passed in as a function from the argument list to its
result object: strip the marker, build the args, invoke; if the result
carries an exception, raise it verbatim; otherwise construct
Manifest(command, run_execution_result=result.result), whose __init__ raises
when result.result is None. -/
def execute_dbt_command (p : DbtRunnerParsons)
    (invoke : List String → DbtRunnerResult) (command : String) :
    Except RunError Manifest :=
  let stripped := stripMarker command
  let result := invoke (buildCliArgs p command)
  match result.exception with
  | some e => .error (.runnerExc e)
  | none =>
      match manifestInit stripped result.result none with
      | .ok ir => .ok ir.manifest
      | .error msg => .error (.initError msg)

/- The loop body of dbtRunnerParsons.run: execute each command in order,
propagating any exception; append the wrapper when
`if result.run_execution_result:` holds — the wrapped object is guaranteed
non-null by Manifest.__init__ and is modelled as always truthy, so the
append is unconditional. -/
def runCommands (p : DbtRunnerParsons) (invoke : List String → DbtRunnerResult) :
    List String → Except RunError (List Manifest)
  | [] => .ok []
  | c :: rest =>
      match execute_dbt_command p invoke c with
      | .error e => .error e
      | .ok m =>
          match runCommands p invoke rest with
          | .error e => .error e
          | .ok ms => .ok (m :: ms)

/- dbtRunnerParsons.run: executes the commands one by one and returns the
collected wrappers, or lets the first exception escape. -/
def DbtRunnerParsons.run (p : DbtRunnerParsons)
    (invoke : List String → DbtRunnerResult) : Except RunError (List Manifest) :=
  runCommands p invoke p.commands

/- ----------------------------------------------------------------- -/
/- Concrete fixtures used by witnesses and concrete conjuncts. -/

/- A NodeResult-shaped entry of the given status on a Model node (the test
factory's default resource type). -/
def mkModelNode (s : NodeStatus) : RunResultItem :=
  { isNodeResult := true, status := s,
    node := { name := "m", resource_type := some NodeType.Model },
    adapter_response := [], extra := [] }

/- A wrapper over Model nodes carrying the given statuses. -/
def manifestOfStatuses (ss : List NodeStatus) : Manifest :=
  { command := "run",
    run_execution_result :=
      { results := ss.map mkModelNode, metadata := none, extra := [] } }

/- A skipped node of Test resource type. -/
def skippedTestNode : RunResultItem :=
  { isNodeResult := true, status := .Skipped,
    node := { name := "t1", resource_type := some NodeType.Test },
    adapter_response := [], extra := [] }

/- A wrapper whose only results are skipped tests. -/
def mTestSkips : Manifest :=
  { command := "run",
    run_execution_result :=
      { results := [skippedTestNode, skippedTestNode], metadata := none, extra := [] } }

/- A wrapper over an empty result set. -/
def mEmpty : Manifest :=
  { command := "run",
    run_execution_result := { results := [], metadata := none, extra := [] } }

/- A Success node reporting the given byte count. -/
def gbNode (b : Rat) : RunResultItem :=
  { isNodeResult := true, status := .Success,
    node := { name := "m", resource_type := some NodeType.Model },
    adapter_response := [("bytes_processed", b), ("slot_ms", 3600000)], extra := [] }

def gbManifest (bs : List Rat) : Manifest :=
  { command := "run",
    run_execution_result := { results := bs.map gbNode, metadata := none, extra := [] } }

/- An empty outcome object. -/
def rer0 : RunExecutionResult := { results := [], metadata := none, extra := [] }

/- A one-command batch. -/
def pC1 : DbtRunnerParsons :=
  { commands := ["run"], dbt_project_directory := "/proj", dbt_profile_directory := none }

/- An invocation that succeeds (no exception) but produces no outcome object. -/
def invokeC1 (_args : List String) : DbtRunnerResult :=
  { exception := none, result := none }

/- An invocation that always succeeds with an (empty) outcome object. -/
def invokeOkEmpty (_args : List String) : DbtRunnerResult :=
  { exception := none, result := some rer0 }

/- A three-command batch whose second command reports an exception. -/
def pC3 : DbtRunnerParsons :=
  { commands := ["seed", "run", "test"], dbt_project_directory := "/proj",
    dbt_profile_directory := none }

def invokeC3 (args : List String) : DbtRunnerResult :=
  if args = ["seed", "--project-dir", "/proj"] then { exception := none, result := some rer0 }
  else { exception := some { msg := "boom" }, result := none }

/- A successful Model node, a non-NodeResult entry with Success status, and a
skipped Test node, for exercising filter_results. -/
def successNode : RunResultItem := mkModelNode .Success

def otherSuccess : RunResultItem :=
  { isNodeResult := false, status := .Success,
    node := { name := "src", resource_type := some NodeType.Source },
    adapter_response := [], extra := [] }

def mMixed : Manifest :=
  { command := "run",
    run_execution_result :=
      { results := [successNode, otherSuccess, skippedTestNode], metadata := none,
        extra := [] } }

/- A wrapper with a metadata sub-object and extra outcome attributes, for
exercising the attribute fallback chain. -/
def mG : Manifest :=
  { command := "run",
    run_execution_result :=
      { results := [],
        metadata := some { fields := [("project_name", "my_proj"), ("dbt_version", "1.7.0")] },
        extra := [("custom_field", "test_value"), ("elapsed_time", "1.23")] } }

/- ----------------------------------------------------------------- -/
/- Helper lemmas. -/

theorem NodeStatus.str_injective : Function.Injective NodeStatus.str := by
  intro a b h
  cases a <;> cases b <;> first | rfl | (exfalso; revert h; decide)

theorem getattrStr_status (r : RunResultItem) (s : NodeStatus) :
    r.getattrStr "status" = some s.str ↔ r.status = s := by
  have hs : r.getattrStr "status" = some r.status.str := by
    unfold RunResultItem.getattrStr
    simp
  rw [hs]
  simp only [Option.some.injEq]
  exact ⟨fun h => NodeStatus.str_injective h, fun h => by rw [h]⟩

/- The status filter of the derived views, as a single predicate over
self.results. -/
theorem filter_results_status (m : Manifest) (s : NodeStatus) :
    m.filter_results [("status", s.str)] =
      m.results.filter (fun r => r.isNodeResult && decide (r.status = s)) := by
  unfold Manifest.filter_results
  apply List.filter_congr
  intro r _
  by_cases h : r.status = s
  · simp [List.all_cons, (getattrStr_status r s).mpr h, h]
  · have h' : ¬ r.getattrStr "status" = some s.str := fun hs => h ((getattrStr_status r s).mp hs)
    simp [List.all_cons, h', h]

/- Manifest.skips as a single predicate over self.results. -/
theorem skips_eq (m : Manifest) :
    m.skips = m.results.filter
      (fun r => r.isNodeResult && decide (r.status = NodeStatus.Skipped) &&
        decide (r.node.resource_type = some NodeType.Model)) := by
  unfold Manifest.skips
  rw [filter_results_status, List.filter_filter]
  apply List.filter_congr
  intro r _
  rw [Bool.and_comm]

/- A status-filtered view is empty when no entry carries that status. -/
theorem filter_results_status_nil (m : Manifest) (s : NodeStatus)
    (h : ∀ r ∈ m.results, r.status ≠ s) :
    m.filter_results [("status", s.str)] = [] := by
  rw [filter_results_status]
  exact List.filter_eq_nil_iff.mpr (fun r hr => by simp [h r hr])

/- execute_dbt_command when the invocation reports an exception. -/
theorem execute_exc (p : DbtRunnerParsons) (invoke : List String → DbtRunnerResult)
    (c : String) (e : Exc)
    (h : (invoke (buildCliArgs p c)).exception = some e) :
    execute_dbt_command p invoke c = .error (.runnerExc e) := by
  unfold execute_dbt_command
  dsimp only
  rw [h]

/- execute_dbt_command when the invocation succeeds with a non-null result. -/
theorem execute_ok (p : DbtRunnerParsons) (invoke : List String → DbtRunnerResult)
    (c : String) (r : RunExecutionResult)
    (hexc : (invoke (buildCliArgs p c)).exception = none)
    (hres : (invoke (buildCliArgs p c)).result = some r) :
    execute_dbt_command p invoke c =
      .ok { command := stripMarker c, run_execution_result := r } := by
  unfold execute_dbt_command
  dsimp only
  rw [hexc, hres]
  rfl

/- execute_dbt_command when the invocation succeeds but its result field is
null: Manifest.__init__ raises. -/
theorem execute_null_result (p : DbtRunnerParsons)
    (invoke : List String → DbtRunnerResult) (c : String)
    (hexc : (invoke (buildCliArgs p c)).exception = none)
    (hres : (invoke (buildCliArgs p c)).result = none) :
    execute_dbt_command p invoke c = .error (.initError "missing run_execution_result") := by
  unfold execute_dbt_command
  dsimp only
  rw [hexc, hres]
  rfl

/- The loop aborts with the runner-reported exception of the first failing
command, whatever the commands after it do. -/
theorem runCommands_exc (p : DbtRunnerParsons) (invoke : List String → DbtRunnerResult)
    (pre : List String) (c : String) (post : List String) (e : Exc)
    (hpre : ∀ c' ∈ pre, (invoke (buildCliArgs p c')).exception = none ∧
        (invoke (buildCliArgs p c')).result ≠ none)
    (hc : (invoke (buildCliArgs p c)).exception = some e) :
    runCommands p invoke (pre ++ c :: post) = .error (.runnerExc e) := by
  induction pre with
  | nil =>
      rw [List.nil_append, runCommands, execute_exc p invoke c e hc]
  | cons c' pre ih =>
      obtain ⟨h1, h2⟩ := hpre c' (List.mem_cons_self c' pre)
      obtain ⟨r, hr⟩ := Option.ne_none_iff_exists'.mp h2
      rw [List.cons_append, runCommands, execute_ok p invoke c' r h1 hr,
        ih (fun x hx => hpre x (List.mem_cons_of_mem c' hx))]

/- The loop aborts with the Manifest.__init__ exception at the first command
whose invocation succeeds with a null result field. -/
theorem runCommands_null_result (p : DbtRunnerParsons)
    (invoke : List String → DbtRunnerResult)
    (pre : List String) (c : String) (post : List String)
    (hpre : ∀ c' ∈ pre, (invoke (buildCliArgs p c')).exception = none ∧
        (invoke (buildCliArgs p c')).result ≠ none)
    (hexc : (invoke (buildCliArgs p c)).exception = none)
    (hres : (invoke (buildCliArgs p c)).result = none) :
    runCommands p invoke (pre ++ c :: post) =
      .error (.initError "missing run_execution_result") := by
  induction pre with
  | nil =>
      rw [List.nil_append, runCommands, execute_null_result p invoke c hexc hres]
  | cons c' pre ih =>
      obtain ⟨h1, h2⟩ := hpre c' (List.mem_cons_self c' pre)
      obtain ⟨r, hr⟩ := Option.ne_none_iff_exists'.mp h2
      rw [List.cons_append, runCommands, execute_ok p invoke c' r h1 hr,
        ih (fun x hx => hpre x (List.mem_cons_of_mem c' hx))]

/- When every invocation succeeds with a non-null result, the loop returns the
wrappers of all commands, in command order. -/
theorem runCommands_all_ok (p : DbtRunnerParsons)
    (invoke : List String → DbtRunnerResult) (cs : List String)
    (f : String → RunExecutionResult)
    (h : ∀ c ∈ cs, invoke (buildCliArgs p c) = { exception := none, result := some (f c) }) :
    runCommands p invoke cs =
      .ok (cs.map (fun c => { command := stripMarker c, run_execution_result := f c })) := by
  induction cs with
  | nil => rfl
  | cons c cs ih =>
      have hc := h c (List.mem_cons_self c cs)
      rw [runCommands, execute_ok p invoke c (f c) (by rw [hc]) (by rw [hc]),
        ih (fun x hx => h x (List.mem_cons_of_mem c hx)), List.map_cons]

/- ----------------------------------------------------------------- -/
/- Claim theorems. -/

/-- Claim C2: overall_status is a fixed precedence ladder — Error if the
errors or fails list is non-empty; else Warn if the warnings list is
non-empty; else Skipped if the skips list is non-empty and the summary
records zero nodes with Success or Pass status; else Success.  In
particular [Success, Fail] gives Error, [Success, Warn] gives Warn,
[Skipped] (a skipped Model) gives Skipped, [Skipped, Success] gives
Success, and [Error, Warn] gives Error. -/
theorem c2_overall_status_precedence (m : Manifest) :
    ((m.errors ≠ [] ∨ m.fails ≠ []) → m.overall_status = NodeStatus.Error) ∧
    (m.errors = [] → m.fails = [] → m.warnings ≠ [] →
      m.overall_status = NodeStatus.Warn) ∧
    (m.errors = [] → m.fails = [] → m.warnings = [] → m.skips ≠ [] →
      m.summary NodeStatus.Success = 0 → m.summary NodeStatus.Pass = 0 →
      m.overall_status = NodeStatus.Skipped) ∧
    (m.errors = [] → m.fails = [] → m.warnings = [] →
      (m.skips = [] ∨ 0 < m.summary NodeStatus.Success ∨ 0 < m.summary NodeStatus.Pass) →
      m.overall_status = NodeStatus.Success) ∧
    (manifestOfStatuses [.Success, .Fail]).overall_status = NodeStatus.Error ∧
    (manifestOfStatuses [.Success, .Warn]).overall_status = NodeStatus.Warn ∧
    (manifestOfStatuses [.Skipped]).overall_status = NodeStatus.Skipped ∧
    (manifestOfStatuses [.Skipped, .Success]).overall_status = NodeStatus.Success ∧
    (manifestOfStatuses [.Error, .Warn]).overall_status = NodeStatus.Error := by
  refine ⟨?_, ?_, ?_, ?_, by decide, by decide, by decide, by decide, by decide⟩
  · intro h
    unfold Manifest.overall_status
    rw [if_pos h]
  · intro he hf hw
    unfold Manifest.overall_status
    rw [if_neg (by simp [he, hf]), if_pos hw]
  · intro he hf hw hs h1 h2
    unfold Manifest.overall_status
    rw [if_neg (by simp [he, hf]), if_neg (by simp [hw])]
    dsimp only
    rw [if_pos (by simp [hs, h1, h2])]
  · intro he hf hw h
    unfold Manifest.overall_status
    rw [if_neg (by simp [he, hf]), if_neg (by simp [hw])]
    dsimp only
    rw [if_neg (by rcases h with h | h | h <;> simp [h])]

/-- Witness for C2 at a concrete input: a batch with one failed Model node
has overall_status Error. -/
theorem c2_overall_status_precedence_witness :
    (manifestOfStatuses [.Fail]).overall_status = NodeStatus.Error :=
  (c2_overall_status_precedence (manifestOfStatuses [.Fail])).1 (Or.inr (by decide))

/-- Claim C8: the skips view contains exactly the node outcomes whose
status is Skipped and whose node's resource type is Model; a wrapper over
only skipped Test nodes has an empty skips view, while a skipped Model is
included. -/
theorem c8_skips_models_only (m : Manifest) :
    m.skips = m.results.filter
      (fun r => r.isNodeResult && decide (r.status = NodeStatus.Skipped) &&
        decide (r.node.resource_type = some NodeType.Model)) ∧
    mTestSkips.skips = [] ∧
    (manifestOfStatuses [.Skipped]).skips = [mkModelNode .Skipped] :=
  ⟨skips_eq m, by decide, by decide⟩

/-- Claim C9: total_gb_processed is the sum over all nodes of the
bytes_processed entry of the adapter-response mapping (0 when absent),
divided by 1e9; byte counts [2e9] give 2.0, [1.5e9, 2.5e9] give 4.0, and
an empty node set gives 0.0. -/
theorem c9_total_gb_processed (m : Manifest) :
    m.total_gb_processed * 1000000000 =
      (m.results.map
        (fun node => (node.adapter_response.lookup "bytes_processed").getD 0)).sum ∧
    (gbManifest [2000000000]).total_gb_processed = 2 ∧
    (gbManifest [1500000000, 2500000000]).total_gb_processed = 4 ∧
    (gbManifest []).total_gb_processed = 0 := by
  refine ⟨?_, ?_, ?_, ?_⟩
  · unfold Manifest.total_gb_processed
    rw [div_mul_cancel₀]
    norm_num
  · simp [gbManifest, gbNode, Manifest.total_gb_processed, Manifest.results, List.lookup]
    norm_num
  · simp [gbManifest, gbNode, Manifest.total_gb_processed, Manifest.results, List.lookup]
    norm_num
  · simp [gbManifest, Manifest.total_gb_processed, Manifest.results]

/-- Claim C10: a wrapper all of whose node outcomes are Skipped with a
non-Model resource type has overall_status Success, because the Skipped
branch inspects only the Model-restricted skips view; likewise an empty
result set yields Success. -/
theorem c10_skipped_tests_give_success (m : Manifest)
    (h : ∀ r ∈ m.results, r.status = NodeStatus.Skipped ∧
        r.node.resource_type ≠ some NodeType.Model) :
    m.overall_status = NodeStatus.Success := by
  have herr : m.errors = [] := by
    unfold Manifest.errors
    exact filter_results_status_nil m NodeStatus.Error
      (fun r hr => by rw [(h r hr).1]; decide)
  have hfail : m.fails = [] := by
    unfold Manifest.fails
    exact filter_results_status_nil m NodeStatus.Fail
      (fun r hr => by rw [(h r hr).1]; decide)
  have hwarn : m.warnings = [] := by
    unfold Manifest.warnings
    exact filter_results_status_nil m NodeStatus.Warn
      (fun r hr => by rw [(h r hr).1]; decide)
  have hskips : m.skips = [] := by
    rw [skips_eq]
    exact List.filter_eq_nil_iff.mpr (fun r hr => by simp [(h r hr).2])
  unfold Manifest.overall_status
  rw [if_neg (by simp [herr, hfail]), if_neg (by simp [hwarn])]
  dsimp only
  rw [if_neg (by simp [hskips])]

/-- Witness for C10 at concrete inputs: a wrapper of two skipped Test nodes
and a wrapper with no results both have overall_status Success. -/
theorem c10_skipped_tests_give_success_witness :
    mTestSkips.overall_status = NodeStatus.Success ∧
    mEmpty.overall_status = NodeStatus.Success :=
  ⟨c10_skipped_tests_give_success mTestSkips (by decide),
   c10_skipped_tests_give_success mEmpty (by decide)⟩

/-- Claim C7: filter_results returns exactly the per-node outcomes (entries
of NodeResult type; other entries are excluded) whose stringified named
fields equal the given values for every constraint — AND semantics, exact
stringified equality, preserving the order of the underlying results.  The
hypothesis scopes the statement to constraint keys defined on every node
entry (a missing key raises AttributeError in the source). -/
theorem c7_filter_results (m : Manifest) (kwargs : List (String × String))
    (_hdef : ∀ r ∈ m.results, r.isNodeResult = true →
      ∀ kv ∈ kwargs, (r.getattrStr kv.fst).isSome) :
    m.filter_results kwargs =
      (m.results.filter (fun r => r.isNodeResult)).filter
        (fun r => kwargs.all (fun kv => decide (r.getattrStr kv.fst = some kv.snd))) ∧
    (∀ r, r ∈ m.filter_results kwargs ↔
      r ∈ m.results ∧ r.isNodeResult = true ∧
      ∀ kv ∈ kwargs, r.getattrStr kv.fst = some kv.snd) := by
  constructor
  · unfold Manifest.filter_results
    rw [List.filter_filter]
    apply List.filter_congr
    intro r _
    rw [Bool.and_comm]
  · intro r
    unfold Manifest.filter_results
    simp [List.mem_filter, List.all_eq_true, and_assoc]

/-- Witness for C7 at a concrete input: filtering a mixed result set on
status "success" keeps exactly the successful NodeResult entry, excluding
the non-NodeResult entry that also has Success status. -/
theorem c7_filter_results_witness :
    mMixed.filter_results [("status", "success")] = [successNode] :=
  ((c7_filter_results mMixed [("status", "success")] (by decide)).1).trans (by decide)

/-- Claim C5: attribute lookup on the wrapper returns fields set directly on
the wrapper first; otherwise a key of the outcome's metadata sub-object;
otherwise a key of the outcome object itself; otherwise it raises an
attribute-not-found error naming the wrapper type and the missing key. -/
theorem c5_getattr_chain (m : Manifest) (key : String) :
    m.getattr "command" = .ok (.str m.command) ∧
    m.getattr "run_execution_result" = .ok (.rer m.run_execution_result) ∧
    (key ≠ "command" → key ≠ "run_execution_result" →
      ((∀ v, metadataLookup m key = some v → m.getattr key = .ok (.str v)) ∧
       (metadataLookup m key = none →
         ∀ v, m.run_execution_result.getattr key = some v → m.getattr key = .ok v) ∧
       (metadataLookup m key = none → m.run_execution_result.getattr key = none →
         m.getattr key =
           .error ("'Manifest' object has no attribute '" ++ key ++ "'")))) := by
  refine ⟨by unfold Manifest.getattr; rw [if_pos rfl], ?_, ?_⟩
  · unfold Manifest.getattr
    rw [if_neg (by decide), if_pos rfl]
  · intro h1 h2
    refine ⟨?_, ?_, ?_⟩
    · intro v hv
      unfold Manifest.getattr
      rw [if_neg h1, if_neg h2, hv]
    · intro hmd v hv
      unfold Manifest.getattr
      rw [if_neg h1, if_neg h2, hmd, hv]
    · intro hmd hres
      unfold Manifest.getattr
      rw [if_neg h1, if_neg h2, hmd, hres]

/-- Witness for C5 at concrete inputs: a metadata field is reached through
the fallback, an outcome-object field is reached when metadata lacks the
key, and a key absent everywhere produces the documented error. -/
theorem c5_getattr_chain_witness :
    mG.getattr "project_name" = .ok (.str "my_proj") ∧
    mG.getattr "custom_field" = .ok (.str "test_value") ∧
    mG.getattr "missing_key" =
      .error "'Manifest' object has no attribute 'missing_key'" := by
  refine ⟨?_, ?_, ?_⟩
  · exact ((c5_getattr_chain mG "project_name").2.2 (by decide) (by decide)).1
      "my_proj" (by decide)
  · exact (((c5_getattr_chain mG "custom_field").2.2 (by decide) (by decide)).2.1
      (by decide)) (.str "test_value") (by decide)
  · exact (((c5_getattr_chain mG "missing_key").2.2 (by decide) (by decide)).2.2
      (by decide) (by decide))

/-- Claim C6: wrapper construction fails with an explicit error iff both the
primary outcome argument and the deprecated alternate keyword are null;
when only the deprecated keyword carries a value, it is substituted for
the primary field, a deprecation warning is emitted, and construction
succeeds. -/
theorem c6_manifest_init (command : String) (rer dm : Option RunExecutionResult) :
    (manifestInit command rer dm = .error "missing run_execution_result" ↔
      rer = none ∧ dm = none) ∧
    (∀ r, manifestInit command none (some r) =
      .ok { manifest := { command := command, run_execution_result := r },
            deprecationWarning := true }) := by
  constructor
  · cases rer <;> cases dm <;> simp [manifestInit]
  · intro r
    rfl

/-- Witness for C6 at concrete inputs: the deprecated keyword substitutes
with a warning, and both arguments null is the failing case. -/
theorem c6_manifest_init_witness :
    manifestInit "run" none (some rer0) =
      .ok { manifest := { command := "run", run_execution_result := rer0 },
            deprecationWarning := true } ∧
    manifestInit "run" none none = .error "missing run_execution_result" :=
  ⟨(c6_manifest_init "run" none none).2 rer0,
   (c6_manifest_init "run" none none).1.mpr ⟨rfl, rfl⟩⟩

/-- Claim C4: the token list passed to the underlying runner is the command
with the literal leading "dbt " marker stripped, split into tokens, then
always the two tokens --project-dir and the project directory, then the
two tokens --profiles-dir and the profile directory only when supplied;
"dbt run" and "run" both yield first token "run". -/
theorem c4_cli_args (p : DbtRunnerParsons) (command : String) :
    buildCliArgs p command =
      pySplit ' ' (stripMarker command) ++
        ["--project-dir", p.dbt_project_directory] ++
        (match p.dbt_profile_directory with
          | some d => ["--profiles-dir", d]
          | none => []) ∧
    (buildCliArgs p "dbt run").head? = some "run" ∧
    (buildCliArgs p "run").head? = some "run" := by
  obtain ⟨cs, dir, prof⟩ := p
  refine ⟨?_, ?_, ?_⟩ <;> cases prof <;> first | rfl | simp [buildCliArgs]

/-- Claim C3: a runner-reported exception is raised verbatim out of the
batch call after the single failing invocation; no list of results is
returned, and the batch outcome does not depend on the invocations after
the failing command (they never execute). -/
theorem c3_exception_fail_fast (p : DbtRunnerParsons)
    (invoke : List String → DbtRunnerResult)
    (pre : List String) (c : String) (post : List String) (e : Exc)
    (hcmds : p.commands = pre ++ c :: post)
    (hpre : ∀ c' ∈ pre, (invoke (buildCliArgs p c')).exception = none ∧
        (invoke (buildCliArgs p c')).result ≠ none)
    (hc : (invoke (buildCliArgs p c)).exception = some e) :
    execute_dbt_command p invoke c = .error (.runnerExc e) ∧
    p.run invoke = .error (.runnerExc e) ∧
    (∀ invoke' : List String → DbtRunnerResult,
      (∀ c' ∈ pre, invoke' (buildCliArgs p c') = invoke (buildCliArgs p c')) →
      invoke' (buildCliArgs p c) = invoke (buildCliArgs p c) →
      p.run invoke' = .error (.runnerExc e)) := by
  refine ⟨execute_exc p invoke c e hc, ?_, ?_⟩
  · unfold DbtRunnerParsons.run
    rw [hcmds]
    exact runCommands_exc p invoke pre c post e hpre hc
  · intro invoke' hagree hagreec
    unfold DbtRunnerParsons.run
    rw [hcmds]
    exact runCommands_exc p invoke' pre c post e
      (fun x hx => by rw [hagree x hx]; exact hpre x hx)
      (by rw [hagreec]; exact hc)

/-- Witness for C3 at a concrete input: in the batch ["seed", "run",
"test"], the exception reported on "run" escapes the whole batch call. -/
theorem c3_exception_fail_fast_witness :
    pC3.run invokeC3 = .error (.runnerExc { msg := "boom" }) :=
  (c3_exception_fail_fast pC3 invokeC3 ["seed"] "run" ["test"] { msg := "boom" }
    rfl (by decide) (by decide)).2.1

/-- Claim C1 fails on the code: a batch whose single command's invocation
succeeds (no exception) with a null result field raises the
Manifest.__init__ exception instead of silently excluding the command and
returning a list. -/
theorem c1_counterexample :
    pC1.run invokeC1 = .error (.initError "missing run_execution_result") ∧
    pC1.run invokeC1 ≠ .ok [] := by
  refine ⟨rfl, fun h => ?_⟩
  rw [show pC1.run invokeC1 =
      Except.error (RunError.initError "missing run_execution_result") from rfl] at h
  exact absurd h (by simp)

/-- Claim C1 as amended: when an invocation succeeds but its result field is
null, wrapper construction raises Exception("missing run_execution_result"),
aborting the batch with no returned list; when every invocation succeeds
with a non-null result, the output is the ordered list of wrappers for all
commands, in command order. -/
theorem c1_null_result_raises (p : DbtRunnerParsons)
    (invoke : List String → DbtRunnerResult) :
    (∀ pre c post,
      p.commands = pre ++ c :: post →
      (∀ c' ∈ pre, (invoke (buildCliArgs p c')).exception = none ∧
          (invoke (buildCliArgs p c')).result ≠ none) →
      (invoke (buildCliArgs p c)).exception = none →
      (invoke (buildCliArgs p c)).result = none →
      p.run invoke = .error (.initError "missing run_execution_result")) ∧
    (∀ f : String → RunExecutionResult,
      (∀ c ∈ p.commands,
        invoke (buildCliArgs p c) = { exception := none, result := some (f c) }) →
      p.run invoke =
        .ok (p.commands.map
          (fun c => { command := stripMarker c, run_execution_result := f c }))) := by
  constructor
  · intro pre c post hcmds hpre hexc hres
    unfold DbtRunnerParsons.run
    rw [hcmds]
    exact runCommands_null_result p invoke pre c post hpre hexc hres
  · intro f h
    unfold DbtRunnerParsons.run
    exact runCommands_all_ok p invoke p.commands f h

/-- Witness for the amended C1 at concrete inputs: the null-result batch
aborts with the construction error, and an all-successful batch returns
one wrapper per command in order. -/
theorem c1_null_result_raises_witness :
    pC1.run invokeC1 = .error (.initError "missing run_execution_result") ∧
    pC1.run invokeOkEmpty = .ok [{ command := "run", run_execution_result := rer0 }] := by
  constructor
  · exact (c1_null_result_raises pC1 invokeC1).1 [] "run" [] rfl (by simp) rfl rfl
  · exact ((c1_null_result_raises pC1 invokeOkEmpty).2 (fun _ => rer0)
      (fun c _ => rfl)).trans rfl

end ParsonsDbt
